import Mathlib

/-!
A shallow embedding of `crates/ide/src/view_crate_graph.rs`: the crate-graph
visualization pipeline of an IDE backend.  The pipeline filters the crate
graph down to workspace crates, serializes the filtered graph to the `dot`
textual format, and pipes that text through an external `dot` process to
obtain an SVG.

The data model (`CrateGraph`, `CrateId`, `CrateData`, `Dependency`, source
roots and their `is_library` flag) lives in the `ide_db`/`base_db` crates of
the repository, which are not part of the excerpt; it is modelled here from
the specification's data-model section: a crate graph is an arena of
per-crate records indexed by the dense integer `CrateId`, each record
carrying a root file id, an optional display name and an ordered dependency
list, and the database resolves a file id to a source root with a boolean
library flag.  Machine integers (`u32` crate ids, file ids) are modelled as
`Nat`; the code never exercises overflow.
-/

/-- CrateId: the dense `u32` index of a crate in the crate-graph arena. -/
abbrev CrateId := Nat

/-- Dependency: a directed edge record stored on the dependent crate, holding
the target crate id and the declared dependency name. -/
structure Dependency where
  crate_id : CrateId
  name : String
deriving DecidableEq

/-- CrateData: per-crate attributes used by the renderer — the root file id,
the optional human-readable display name, and the ordered outgoing
dependency list. -/
structure CrateData where
  root_file_id : Nat
  display_name : Option String
  dependencies : List Dependency
deriving DecidableEq

/-- Default crate record, used only to make arena indexing total; every
access performed by the code is at an id produced by iterating the arena,
hence in range. -/
def defaultCrateData : CrateData := ⟨0, none, []⟩

/-- SourceRoot: the per-source-root classification consulted by the filter;
`is_library` marks externally-sourced (vendored/sysroot) code. -/
structure SourceRoot where
  is_library : Bool
deriving DecidableEq

/-- CrateGraph: the arena of crate records, indexed by `CrateId`. -/
abbrev CrateGraph := List CrateData

/-- Iteration over the crate graph (`crate_graph.iter()`): all crate ids of
the arena, in index order. -/
def CrateGraph.iter (g : CrateGraph) : List CrateId := List.range g.length

/-- Arena indexing (`crate_graph[krate]`), made total with a default; the
code only indexes at ids obtained from `iter`, which are in range. -/
def CrateGraph.get (g : CrateGraph) (k : CrateId) : CrateData :=
  g.getD k defaultCrateData

/-- RootDatabase: the read-only database view the pipeline borrows — the
crate graph plus the file-to-source-root and source-root lookups
(`db.file_source_root`, `db.source_root`), modelled as total maps as in the
salsa database. -/
structure RootDatabase where
  crates : CrateGraph
  file_source_root : Nat → Nat
  source_root : Nat → SourceRoot

/-- The `db.crate_graph()` accessor. -/
def RootDatabase.crate_graph (db : RootDatabase) : CrateGraph := db.crates

/-- The workspace filter of `view_crate_graph`: iterate the crate graph and
keep a crate iff the source root resolved from its root file is not a
library root.  The Rust code collects into an `FxHashSet`; the set is
modelled as the filtered list in graph-iteration order (`FxHashSet` uses the
unseeded `FxHasher`, so its iteration order is itself a deterministic
function of its contents). -/
def crates_to_render (db : RootDatabase) : List CrateId :=
  db.crate_graph.iter.filter fun krate =>
    !(db.source_root (db.file_source_root
        (db.crate_graph.get krate).root_file_id)).is_library

/-- DotCrateGraph: the adapter handed to `dot::render`, holding the full
graph and the filtered id set. -/
structure DotCrateGraph where
  graph : CrateGraph
  crates_to_render : List CrateId

/-- Construction of the adapter inside `view_crate_graph`. -/
def mkDotCrateGraph (db : RootDatabase) : DotCrateGraph :=
  ⟨db.crate_graph, crates_to_render db⟩

/-- GraphWalk `nodes`: every crate of the filtered set. -/
def DotCrateGraph.nodes (g : DotCrateGraph) : List CrateId :=
  g.crates_to_render

/-- GraphWalk `edges`: for each rendered crate, its dependencies whose
target is also rendered, as (source, dependency) pairs. -/
def DotCrateGraph.edges (g : DotCrateGraph) : List (CrateId × Dependency) :=
  g.crates_to_render.flatMap fun krate =>
    ((g.graph.get krate).dependencies.filter fun dep =>
      g.crates_to_render.contains dep.crate_id).map fun dep => (krate, dep)

/-- GraphWalk `source`: first component of the edge pair. -/
def DotCrateGraph.source (e : CrateId × Dependency) : CrateId := e.1

/-- GraphWalk `target`: the dependency's target crate id. -/
def DotCrateGraph.target (e : CrateId × Dependency) : CrateId := e.2.crate_id

/-- Labeller `graph_id`: the fixed graph-level identifier. -/
def DotCrateGraph.graph_id : String := "rust_analyzer_crate_graph"

/-- Decimal digit characters of a natural number, least significant digit
accumulated last, with explicit fuel so the definition is structural.  This
models the decimal rendering of the `u32` id by Rust's `Display` (used by
the `format!("{}_{}", name, n.0)` call). -/
def decDigitsCore (fuel n : Nat) (acc : List Char) : List Char :=
  match fuel with
  | 0 => acc
  | fuel + 1 =>
    if n < 10 then Nat.digitChar n :: acc
    else decDigitsCore fuel (n / 10) (Nat.digitChar (n % 10) :: acc)

/-- Decimal digit characters of `n`; `n + 1` units of fuel always suffice
since the recursion divides by ten each step. -/
def decDigits (n : Nat) : List Char := decDigitsCore (n + 1) n []

/-- Decimal string of a natural number (Rust's `{}` formatting of the id). -/
def natToString (n : Nat) : String := String.mk (decDigits n)

/-- Labeller `node_id` string: the display name (or the `"_missing_name_"`
placeholder when absent) concatenated with the raw integer id, separated by
an underscore — `format!("{}_{}", name, n.0)`. -/
def DotCrateGraph.node_id (g : DotCrateGraph) (n : CrateId) : String :=
  let name := ((g.graph.get n).display_name).getD "_missing_name_"
  name ++ "_" ++ natToString n

/-- Validity check performed by `Id::new` of the `dot` crate (an external
dependency whose source is not in the repository, modelled from its
documented contract): the string is accepted unchanged iff it is nonempty,
starts with an ASCII letter or underscore, and continues with ASCII
alphanumerics or underscores; otherwise `Id::new` returns `Err`.  The Rust
code calls `.unwrap()` on the result, so `none` here models a panic of the
serializer. -/
def Id.new (s : String) : Option String :=
  match s.data with
  | [] => none
  | c :: cs =>
    if (c.isAlpha || c = '_') && cs.all (fun x => x.isAlphanum || x = '_')
    then some s else none

/-- Serialization performed by `dot::render` (external `dot` crate): one
header line carrying the fixed graph id, one line per entry of `nodes()`
(identified by `node_id`), then one line per entry of `edges()` (source and
target identified by `node_id`), in iteration order.  Only this structure of
the emitted text is modelled. -/
def dotRender (g : DotCrateGraph) : String :=
  "digraph " ++ DotCrateGraph.graph_id ++ " \x7b\n"
    ++ String.join (g.nodes.map fun n => "    " ++ g.node_id n ++ ";\n")
    ++ String.join (g.edges.map fun e =>
        "    " ++ g.node_id e.1 ++ " -> " ++ g.node_id e.2.crate_id ++ ";\n")
    ++ "\x7d\n"

/-- Outcome of the interaction with a successfully spawned `dot` child
process: the result of writing the dot text to its stdin (`write_all`,
depending on the bytes written), and the result of reading its stdout to
completion (`read_to_string`, carrying the complete output on success).
Failures carry the I/O error message. -/
structure ChildProcess where
  write_result : String → Except String Unit
  read_result : Except String String

/-- Environment of one pipeline invocation: whether `Command::new("dot")...
.spawn()` succeeds, and if so how the child's pipes behave. -/
structure ProcessEnv where
  spawn_dot : Except String ChildProcess

/-- Error value of `render_svg` (`Box<dyn Error>` in the source): either the
formatted spawn-failure string, or a propagated I/O error. -/
inductive RenderError where
  | spawnFailure (msg : String)
  | ioFailure (msg : String)
deriving DecidableEq

/-- The `e.to_string()` conversion applied by `view_crate_graph` to the
boxed error. -/
def RenderError.toMessage : RenderError → String
  | .spawnFailure m => m
  | .ioFailure m => m

/-- The `render_svg` function: spawn `dot -Tsvg`, mapping a spawn error to
the distinct message naming the tool; then write the dot text to the child's
stdin and read its stdout to completion, propagating either I/O failure
unchanged (the `?` operator on `write_all` and `read_to_string`). -/
def render_svg (env : ProcessEnv) (dotText : String) : Except RenderError String :=
  match env.spawn_dot with
  | .error err => .error (.spawnFailure ("failed to spawn `dot`: " ++ err))
  | .ok child =>
    match child.write_result dotText with
    | .error e => .error (.ioFailure e)
    | .ok _ =>
      match child.read_result with
      | .error e => .error (.ioFailure e)
      | .ok svg => .ok svg

/-- The `view_crate_graph` entry point: build the filtered adapter, render
it to dot text, shell out to `dot`, and surface any error as its message
string (`map_err(|e| e.to_string())`). -/
def view_crate_graph (env : ProcessEnv) (db : RootDatabase) : Except String String :=
  (render_svg env (dotRender (mkDotCrateGraph db))).mapError RenderError.toMessage

/-- Two-crate database in which both crates share the display name
`"util"`; both are workspace crates. -/
def dbTwoUtil : RootDatabase :=
  { crates := [⟨0, some "util", []⟩, ⟨0, some "util", []⟩],
    file_source_root := fun f => f,
    source_root := fun _ => ⟨false⟩ }

/-- Three-crate database matching the spec's worked example: crate 0 (`"a"`,
workspace) depends on crate 1 (`"b"`, workspace) and on crate 2 (`"c"`,
library). -/
def dbThree : RootDatabase :=
  { crates :=
      [⟨0, some "a", [⟨1, "b"⟩, ⟨2, "c"⟩]⟩,
       ⟨1, some "b", []⟩,
       ⟨2, some "c", []⟩],
    file_source_root := fun f => f,
    source_root := fun r => ⟨r == 2⟩ }

/-- Single-crate database whose crate has no display name. -/
def dbNoName : RootDatabase :=
  { crates := [⟨0, none, []⟩],
    file_source_root := fun f => f,
    source_root := fun _ => ⟨false⟩ }

/-- Single-crate database whose crate has a display name containing a space,
a character that is illegal in a dot identifier. -/
def dbBadName : RootDatabase :=
  { crates := [⟨0, some "my crate", []⟩],
    file_source_root := fun f => f,
    source_root := fun _ => ⟨false⟩ }

/-- Single-crate database with an isolated workspace crate: no outgoing and
no incoming dependencies. -/
def dbIsolated : RootDatabase :=
  { crates := [⟨0, some "iso", []⟩],
    file_source_root := fun f => f,
    source_root := fun _ => ⟨false⟩ }

/-- Environment in which the `dot` executable cannot be started. -/
def envNoDot : ProcessEnv :=
  ⟨.error "No such file or directory (os error 2)"⟩

/-- Characters produced by `Nat.digitChar` for digits below ten are never an
underscore. -/
lemma digitChar_ne_underscore : ∀ d < 10, Nat.digitChar d ≠ '_' := by decide

/-- On digits below ten, `Nat.digitChar` is injective. -/
lemma digitChar_inj_lt : ∀ a < 10, ∀ b < 10,
    Nat.digitChar a = Nat.digitChar b → a = b := by decide

/-- The accumulator of `decDigitsCore` is appended on the right. -/
lemma decDigitsCore_append (fuel : Nat) :
    ∀ (n : Nat) (acc : List Char),
      decDigitsCore fuel n acc = decDigitsCore fuel n [] ++ acc := by
  induction fuel with
  | zero => intro n acc; simp [decDigitsCore]
  | succ fuel ih =>
    intro n acc
    by_cases h : n < 10
    · simp [decDigitsCore, h]
    · simp only [decDigitsCore, if_neg h]
      rw [ih (n / 10) (Nat.digitChar (n % 10) :: acc),
        ih (n / 10) [Nat.digitChar (n % 10)]]
      simp

/-- With positive fuel, `decDigitsCore` emits at least one character. -/
lemma decDigitsCore_ne_nil (fuel n : Nat) (h : 0 < fuel) :
    decDigitsCore fuel n [] ≠ [] := by
  match fuel with
  | fuel + 1 =>
    by_cases h10 : n < 10
    · simp [decDigitsCore, h10]
    · simp only [decDigitsCore, if_neg h10]
      rw [decDigitsCore_append]
      simp

/-- No underscore is ever produced by `decDigitsCore`. -/
lemma underscore_not_mem_decDigitsCore (fuel : Nat) :
    ∀ (n : Nat) (acc : List Char), '_' ∉ acc → '_' ∉ decDigitsCore fuel n acc := by
  induction fuel with
  | zero => intro n acc h; simpa [decDigitsCore] using h
  | succ fuel ih =>
    intro n acc hacc
    by_cases h : n < 10
    · simp only [decDigitsCore, if_pos h]
      intro hmem
      rcases List.mem_cons.mp hmem with h1 | h1
      · exact digitChar_ne_underscore n h h1.symm
      · exact hacc h1
    · simp only [decDigitsCore, if_neg h]
      apply ih
      intro hmem
      rcases List.mem_cons.mp hmem with h1 | h1
      · exact digitChar_ne_underscore (n % 10) (by omega) h1.symm
      · exact hacc h1

/-- Within its fuel bound, `decDigitsCore` is injective in the rendered
number. -/
lemma decDigitsCore_inj : ∀ (f₁ f₂ m n : Nat), m < f₁ → n < f₂ →
    decDigitsCore f₁ m [] = decDigitsCore f₂ n [] → m = n := by
  intro f₁
  induction f₁ with
  | zero => intro f₂ m n hm; omega
  | succ f₁ ih =>
    intro f₂ m n hm hn heq
    match f₂, hn with
    | f₂ + 1, hn =>
      by_cases hm10 : m < 10 <;> by_cases hn10 : n < 10
      · simp only [decDigitsCore, if_pos hm10, if_pos hn10] at heq
        exact digitChar_inj_lt m hm10 n hn10 (List.cons.injEq .. ▸ heq).1
      · exfalso
        simp only [decDigitsCore, if_pos hm10, if_neg hn10] at heq
        rw [decDigitsCore_append] at heq
        have hne := decDigitsCore_ne_nil f₂ (n / 10) (by omega)
        have hlen := congrArg List.length heq
        simp [List.length_append] at hlen
        exact hne hlen
      · exfalso
        simp only [decDigitsCore, if_neg hm10, if_pos hn10] at heq
        rw [decDigitsCore_append] at heq
        have hne := decDigitsCore_ne_nil f₁ (m / 10) (by omega)
        have hlen := congrArg List.length heq.symm
        simp [List.length_append] at hlen
        exact hne hlen
      · simp only [decDigitsCore, if_neg hm10, if_neg hn10] at heq
        rw [decDigitsCore_append f₁ (m / 10) [Nat.digitChar (m % 10)],
          decDigitsCore_append f₂ (n / 10) [Nat.digitChar (n % 10)],
          ← List.concat_eq_append, ← List.concat_eq_append] at heq
        obtain ⟨hcores, hd⟩ := List.concat_inj.mp heq
        have hmod := digitChar_inj_lt (m % 10) (by omega) (n % 10) (by omega) hd
        have hdiv := ih f₂ (m / 10) (n / 10) (by omega) (by omega) hcores
        omega

/-- The decimal digit list determines the number. -/
lemma decDigits_inj {m n : Nat} (h : decDigits m = decDigits n) : m = n :=
  decDigitsCore_inj (m + 1) (n + 1) m n (Nat.lt_succ_self m) (Nat.lt_succ_self n) h

/-- The decimal digit list never contains an underscore. -/
lemma underscore_not_mem_decDigits (n : Nat) : '_' ∉ decDigits n :=
  underscore_not_mem_decDigitsCore (n + 1) n [] (by simp)

/-- takeWhile over an append stops exactly at the first failing character. -/
lemma takeWhile_append_stop (p : Char → Bool) :
    ∀ (l₁ : List Char) (c : Char) (l₂ : List Char),
      (∀ x ∈ l₁, p x = true) → p c = false →
      (l₁ ++ c :: l₂).takeWhile p = l₁ := by
  intro l₁
  induction l₁ with
  | nil => intro c l₂ _ hc; simp [List.takeWhile_cons, hc]
  | cons a l ih =>
    intro c l₂ hall hc
    have ha : p a = true := hall a (by simp)
    simp [List.takeWhile_cons, ha, ih c l₂ (fun x hx => hall x (by simp [hx])) hc]

/-- Cancellation of the part after the last underscore: if two
name-underscore-digits concatenations agree and neither digit part contains
an underscore, the digit parts agree. -/
lemma append_underscore_cancel {a₁ a₂ d₁ d₂ : List Char}
    (h : a₁ ++ '_' :: d₁ = a₂ ++ '_' :: d₂)
    (h₁ : '_' ∉ d₁) (h₂ : '_' ∉ d₂) : d₁ = d₂ := by
  have hr := congrArg List.reverse h
  simp only [List.reverse_append, List.reverse_cons, List.append_assoc,
    List.singleton_append] at hr
  have mem₁ : ∀ x ∈ d₁.reverse, (!(x == '_')) = true := by
    intro x hx
    have hxm : x ∈ d₁ := List.mem_reverse.mp hx
    simp only [Bool.not_eq_true', beq_eq_false_iff_ne]
    intro hxe
    exact h₁ (hxe ▸ hxm)
  have mem₂ : ∀ x ∈ d₂.reverse, (!(x == '_')) = true := by
    intro x hx
    have hxm : x ∈ d₂ := List.mem_reverse.mp hx
    simp only [Bool.not_eq_true', beq_eq_false_iff_ne]
    intro hxe
    exact h₂ (hxe ▸ hxm)
  have k₁ := takeWhile_append_stop (fun c => !(c == '_')) d₁.reverse '_'
    a₁.reverse mem₁ (by decide)
  have k₂ := takeWhile_append_stop (fun c => !(c == '_')) d₂.reverse '_'
    a₂.reverse mem₂ (by decide)
  rw [hr] at k₁
  rw [k₂] at k₁
  exact List.reverse_inj.mp k₁.symm

/-- Character data of the generated node identifier: the display name (or
placeholder), an underscore, then the decimal digits of the id. -/
lemma node_id_data (g : DotCrateGraph) (n : CrateId) :
    (g.node_id n).data =
      (((g.graph.get n).display_name).getD "_missing_name_").data
        ++ '_' :: decDigits n := by
  have h1 : ("_" : String).data = ['_'] := rfl
  show (((g.graph.get n).display_name).getD "_missing_name_"
      ++ "_" ++ natToString n).data = _
  rw [String.data_append, String.data_append, h1]
  simp [natToString, List.append_assoc]

/-- Distinct crate ids always receive distinct node identifiers, whatever
the display names are. -/
lemma node_id_injective (g : DotCrateGraph) {m n : CrateId} (hmn : m ≠ n) :
    g.node_id m ≠ g.node_id n := by
  intro h
  apply hmn
  have hd := congrArg String.data h
  rw [node_id_data, node_id_data] at hd
  exact decDigits_inj (append_underscore_cancel hd
    (underscore_not_mem_decDigits m) (underscore_not_mem_decDigits n))

/-- C1: a crate appears in the rendered node set iff the library flag of the
source root resolved from its root file is false; library crates never
appear in the output. -/
theorem nodes_iff_workspace (db : RootDatabase) (n : CrateId)
    (h : n < db.crate_graph.length) :
    n ∈ (mkDotCrateGraph db).nodes ↔
      (db.source_root (db.file_source_root
        (db.crate_graph.get n).root_file_id)).is_library = false := by
  simp [mkDotCrateGraph, DotCrateGraph.nodes, crates_to_render, CrateGraph.iter,
    List.mem_filter, List.mem_range, h, Bool.not_eq_true']

/-- C1 witness: in the three-crate example, the membership of crate 0 in the
rendered set is equivalent to its source root not being a library root. -/
theorem nodes_iff_workspace_witness :
    0 ∈ (mkDotCrateGraph dbThree).nodes ↔
      (dbThree.source_root (dbThree.file_source_root
        (dbThree.crate_graph.get 0).root_file_id)).is_library = false :=
  nodes_iff_workspace dbThree 0 (by decide)

/-- C2: every edge emitted by the serializer has both endpoints in the
rendered workspace set, and a dependency edge whose target is not rendered
is dropped and never emitted. -/
theorem edges_endpoints_rendered (g : DotCrateGraph) :
    (∀ e ∈ g.edges,
      DotCrateGraph.source e ∈ g.nodes ∧ DotCrateGraph.target e ∈ g.nodes)
    ∧ ∀ k dep, dep ∈ (g.graph.get k).dependencies →
        DotCrateGraph.target (k, dep) ∉ g.nodes → (k, dep) ∉ g.edges := by
  constructor
  · intro e he
    simp only [DotCrateGraph.edges, List.mem_flatMap, List.mem_map,
      List.mem_filter] at he
    obtain ⟨k, hk, dep, ⟨_, hcont⟩, rfl⟩ := he
    refine ⟨hk, ?_⟩
    simpa [DotCrateGraph.target, DotCrateGraph.nodes] using hcont
  · intro k dep _ hnot hmem
    simp only [DotCrateGraph.edges, List.mem_flatMap, List.mem_map,
      List.mem_filter] at hmem
    obtain ⟨k2, _, dep2, ⟨_, hcont2⟩, heq⟩ := hmem
    cases heq
    exact hnot (by simpa [DotCrateGraph.target, DotCrateGraph.nodes] using hcont2)

/-- C2 witness: in the three-crate example the emitted edge to crate 1 has
both endpoints rendered, and the dependency on library crate 2 is dropped. -/
theorem edges_endpoints_rendered_witness :
    (DotCrateGraph.source (0, (⟨1, "b"⟩ : Dependency)) ∈ (mkDotCrateGraph dbThree).nodes
      ∧ DotCrateGraph.target (0, (⟨1, "b"⟩ : Dependency)) ∈ (mkDotCrateGraph dbThree).nodes)
    ∧ (0, (⟨2, "c"⟩ : Dependency)) ∉ (mkDotCrateGraph dbThree).edges :=
  ⟨(edges_endpoints_rendered (mkDotCrateGraph dbThree)).1 _ (by decide),
   (edges_endpoints_rendered (mkDotCrateGraph dbThree)).2 0 ⟨2, "c"⟩ (by decide)
     (by decide)⟩

/-- C3: the node identifier is the display name (or the placeholder)
concatenated with the raw integer id, separated by an underscore, and two
distinct rendered nodes always receive distinct identifiers, even when their
display names coincide. -/
theorem node_id_format_and_unique (g : DotCrateGraph) (m n : CrateId)
    (_hm : m ∈ g.nodes) (_hn : n ∈ g.nodes) (hmn : m ≠ n) :
    g.node_id m = ((g.graph.get m).display_name).getD "_missing_name_"
        ++ "_" ++ natToString m
    ∧ g.node_id m ≠ g.node_id n :=
  ⟨rfl, node_id_injective g hmn⟩

/-- C3 witness: the two crates both displayed as "util" receive the distinct
identifiers "util_0" and "util_1". -/
theorem node_id_format_and_unique_witness :
    (mkDotCrateGraph dbTwoUtil).node_id 0 ≠ (mkDotCrateGraph dbTwoUtil).node_id 1
    ∧ (mkDotCrateGraph dbTwoUtil).node_id 0 = "util_0"
    ∧ (mkDotCrateGraph dbTwoUtil).node_id 1 = "util_1" :=
  ⟨(node_id_format_and_unique (mkDotCrateGraph dbTwoUtil) 0 1 (by decide) (by decide)
      (by decide)).2,
   by decide, by decide⟩

/-- C4 (refuted, code bug): identifier construction performs no escaping and
can fail.  For the display name "my crate" the synthesized identifier
carries the space verbatim — it is neither quote-wrapped nor
percent-escaped — and the `Id::new` validity check of the `dot` crate
rejects it, so the `.unwrap()` in `node_id` panics instead of escaping. -/
theorem node_id_unescaped_panic :
    (mkDotCrateGraph dbBadName).node_id 0 = "my crate_0"
    ∧ ' ' ∈ ((mkDotCrateGraph dbBadName).node_id 0).data
    ∧ '"' ∉ ((mkDotCrateGraph dbBadName).node_id 0).data
    ∧ '%' ∉ ((mkDotCrateGraph dbBadName).node_id 0).data
    ∧ Id.new ((mkDotCrateGraph dbBadName).node_id 0) = none := by
  decide

/-- C5: a rendered node whose display name is absent falls back to the fixed
placeholder, and its identifier label is never empty. -/
theorem missing_name_placeholder (g : DotCrateGraph) (n : CrateId)
    (h : (g.graph.get n).display_name = none) :
    g.node_id n = "_missing_name_" ++ "_" ++ natToString n
    ∧ (g.node_id n).length > 0 := by
  constructor
  · simp [DotCrateGraph.node_id, h]
  · have hd : (g.node_id n).length = (g.node_id n).data.length := rfl
    rw [hd, node_id_data]
    simp only [List.length_append, List.length_cons]
    omega

/-- C5 witness: the nameless crate is labelled with the placeholder and a
nonempty identifier. -/
theorem missing_name_placeholder_witness :
    (mkDotCrateGraph dbNoName).node_id 0 = "_missing_name_" ++ "_" ++ natToString 0
    ∧ ((mkDotCrateGraph dbNoName).node_id 0).length > 0 :=
  missing_name_placeholder (mkDotCrateGraph dbNoName) 0 (by decide)

/-- C6: a spawn failure is reported as the distinct spawn-failure error
whose message names the `dot` tool, never as the generic I/O kind, while
failures writing the child's input or reading its output are reported as the
generic I/O kind. -/
theorem error_kinds (env : ProcessEnv) (t : String) :
    (∀ e, env.spawn_dot = .error e →
      render_svg env t = .error (.spawnFailure ("failed to spawn `dot`: " ++ e))
      ∧ ∀ m, render_svg env t ≠ .error (.ioFailure m))
    ∧ (∀ c e, env.spawn_dot = .ok c → c.write_result t = .error e →
      render_svg env t = .error (.ioFailure e))
    ∧ (∀ c e, env.spawn_dot = .ok c → c.write_result t = .ok () →
      c.read_result = .error e → render_svg env t = .error (.ioFailure e)) := by
  refine ⟨fun e he => ⟨?_, fun m => ?_⟩, fun c e hc hw => ?_, fun c e hc hw hr => ?_⟩
  · simp [render_svg, he]
  · simp [render_svg, he]
  · simp [render_svg, hc, hw]
  · simp [render_svg, hc, hw, hr]

/-- C6 witness: with `dot` absent, the pipeline reports the spawn-failure
kind naming the tool and not the I/O kind. -/
theorem error_kinds_witness :
    render_svg envNoDot "" = .error (.spawnFailure
      ("failed to spawn `dot`: " ++ "No such file or directory (os error 2)"))
    ∧ render_svg envNoDot "" ≠ .error (.ioFailure "broken pipe") :=
  ⟨((error_kinds envNoDot "").1 "No such file or directory (os error 2)" rfl).1,
   ((error_kinds envNoDot "").1 "No such file or directory (os error 2)" rfl).2
     "broken pipe"⟩

/-- C7: serialization is a deterministic function of the input graph: two
runs of the pipeline on an unchanged database produce byte-identical dot
text, and the node enumeration is identical as well. -/
theorem render_deterministic (db₁ db₂ : RootDatabase) (h : db₁ = db₂) :
    dotRender (mkDotCrateGraph db₁) = dotRender (mkDotCrateGraph db₂)
    ∧ (mkDotCrateGraph db₁).nodes = (mkDotCrateGraph db₂).nodes := by
  subst h
  exact ⟨rfl, rfl⟩

/-- C7 witness: two runs on the three-crate database agree byte for byte. -/
theorem render_deterministic_witness :
    dotRender (mkDotCrateGraph dbThree) = dotRender (mkDotCrateGraph dbThree)
    ∧ (mkDotCrateGraph dbThree).nodes = (mkDotCrateGraph dbThree).nodes :=
  render_deterministic dbThree dbThree rfl

/-- C8: one invocation of the pipeline returns either the complete SVG text
read from the child after every stage succeeded, or only an error; no
partial rendered output is ever returned. -/
theorem ok_or_error (env : ProcessEnv) (db : RootDatabase) :
    (∃ svg child, view_crate_graph env db = .ok svg
      ∧ env.spawn_dot = .ok child
      ∧ child.write_result (dotRender (mkDotCrateGraph db)) = .ok ()
      ∧ child.read_result = .ok svg)
    ∨ ∃ msg, view_crate_graph env db = .error msg := by
  rcases hs : env.spawn_dot with e | c
  · exact Or.inr ⟨"failed to spawn `dot`: " ++ e,
      by simp [view_crate_graph, render_svg, hs, Except.mapError, RenderError.toMessage]⟩
  · rcases hw : c.write_result (dotRender (mkDotCrateGraph db)) with e | u
    · exact Or.inr ⟨e, by
        simp [view_crate_graph, render_svg, hs, hw, Except.mapError,
          RenderError.toMessage]⟩
    · rcases hr : c.read_result with e | svg
      · exact Or.inr ⟨e, by
          simp [view_crate_graph, render_svg, hs, hw, hr, Except.mapError,
            RenderError.toMessage]⟩
      · exact Or.inl ⟨svg, c, by
          simp [view_crate_graph, render_svg, hs, hw, hr, Except.mapError], rfl, hw, hr⟩

/-- C10: an isolated workspace crate — one with no outgoing dependencies and
no incoming dependency from any rendered crate — still appears in the node
list, while touching no emitted edge: node enumeration does not depend on
edge enumeration. -/
theorem isolated_crate_rendered (db : RootDatabase) (n : CrateId)
    (hn : n ∈ crates_to_render db)
    (hout : (db.crate_graph.get n).dependencies = [])
    (hin : ∀ k ∈ crates_to_render db,
      ∀ dep ∈ (db.crate_graph.get k).dependencies, dep.crate_id ≠ n) :
    n ∈ (mkDotCrateGraph db).nodes
    ∧ ∀ e ∈ (mkDotCrateGraph db).edges,
        DotCrateGraph.source e ≠ n ∧ DotCrateGraph.target e ≠ n := by
  refine ⟨hn, ?_⟩
  intro e he
  simp only [mkDotCrateGraph, DotCrateGraph.edges, List.mem_flatMap,
    List.mem_map, List.mem_filter] at he
  obtain ⟨k, hk, dep, ⟨hdep, _⟩, rfl⟩ := he
  simp only [DotCrateGraph.source, DotCrateGraph.target]
  refine ⟨fun hkn => ?_, hin k hk dep hdep⟩
  subst hkn
  rw [hout] at hdep
  exact List.not_mem_nil dep hdep

/-- C10 witness: the single isolated crate of `dbIsolated` is rendered and
touches no edge. -/
theorem isolated_crate_rendered_witness :
    0 ∈ (mkDotCrateGraph dbIsolated).nodes
    ∧ ∀ e ∈ (mkDotCrateGraph dbIsolated).edges,
        DotCrateGraph.source e ≠ 0 ∧ DotCrateGraph.target e ≠ 0 :=
  isolated_crate_rendered dbIsolated 0 (by decide) (by decide) (by decide)
